import Mathlib

/-!
# Verification of the credential-authentication core of `rental-management-app`

Shallow embedding of the repository's password utilities
(`src/lib/password.ts`), the NextAuth credentials `authorize` function
(`src/lib/auth.ts`) and the session type guards (`src/types/auth.ts`),
together with theorems settling the specification's claims about them.

Conventions of the embedding:
* JavaScript values that may be `null`, `undefined` or of the wrong
  dynamic type are modelled by the inductive type `JSVal`.
* A JavaScript `async` function that may reject is modelled as a pure
  function returning `Except String α`, the `String` being the error
  message of the thrown `Error`.
* External collaborators (the `bcryptjs` library functions and the
  Prisma database calls) are parameters (oracles) of the embedded
  functions, exactly at the call sites the source uses them.
* JavaScript string `length` (UTF-16 units) is modelled by Lean's
  `String.length`; the two agree on all inputs mentioned by the claims.
-/

namespace RentalAuth

/-- A JavaScript runtime value as far as the password utilities inspect
one: a string, `null`, `undefined`, or a (non-string) number.  The
source guards inputs with `!v || typeof v !== 'string'`. -/
inductive JSVal where
  | str (s : String)
  | nullv
  | undef
  | num (n : Int)
deriving DecidableEq

/-- `v` passes the source's `v && typeof v === 'string'` guard: it is a
string and it is truthy (non-empty). -/
def JSVal.isNonEmptyStr : JSVal → Bool
  | JSVal.str s => s ≠ ""
  | _ => false

/-- `const SALT_ROUNDS = 12` from `src/lib/password.ts`. -/
def SALT_ROUNDS : Nat := 12

/-- `hashPassword` from `src/lib/password.ts`.  The whole body is a
`try` block whose `catch` rewraps any thrown message `m` as
`Password hashing failed: m`; inside it the three validation checks
throw, then `bcrypt.hash(password, SALT_ROUNDS)` is awaited.
`bcryptHash` is the `bcrypt.hash` oracle. -/
def hashPassword (password : JSVal)
    (bcryptHash : String → Nat → Except String String) :
    Except String String :=
  let inner : Except String String :=
    match password with
    | JSVal.str s =>
      if s = "" then
        Except.error "Password must be a non-empty string"
      else if s.length < 8 then
        Except.error "Password must be at least 8 characters long"
      else if s.length > 72 then
        Except.error "Password must be 72 characters or less"
      else
        bcryptHash s SALT_ROUNDS
    | _ => Except.error "Password must be a non-empty string"
  match inner with
  | Except.ok h => Except.ok h
  | Except.error m => Except.error ("Password hashing failed: " ++ m)

/-- `verifyPassword` from `src/lib/password.ts`.  The `try` block
validates both inputs and awaits `bcrypt.compare`; the `catch` replaces
ANY thrown error by the single generic message
`Password verification failed`.  `bcryptCompare` is the
`bcrypt.compare` oracle. -/
def verifyPassword (password hashedPassword : JSVal)
    (bcryptCompare : String → String → Except String Bool) :
    Except String Bool :=
  let inner : Except String Bool :=
    match password, hashedPassword with
    | JSVal.str p, JSVal.str h =>
      if p = "" then
        Except.error "Password must be a non-empty string"
      else if h = "" then
        Except.error "Hashed password must be a non-empty string"
      else
        bcryptCompare p h
    | JSVal.str p, _ =>
      if p = "" then
        Except.error "Password must be a non-empty string"
      else
        Except.error "Hashed password must be a non-empty string"
    | _, _ => Except.error "Password must be a non-empty string"
  match inner with
  | Except.ok b => Except.ok b
  | Except.error _ => Except.error "Password verification failed"

/-- `shouldRehashPassword` from `src/lib/password.ts`: extract the
rounds via `bcrypt.getRounds` (the `getRounds` oracle); if extraction
throws, return `true`; otherwise return `rounds < SALT_ROUNDS`.  The
surrounding `try`/`catch` means the function itself never throws, which
the embedding reflects by returning a plain `Bool`. -/
def shouldRehashPassword (getRounds : String → Except String Nat)
    (hashedPassword : String) : Bool :=
  match getRounds hashedPassword with
  | Except.ok rounds => rounds < SALT_ROUNDS
  | Except.error _ => true

/-- The fixed character set of `generateSecurePassword`
(`src/lib/password.ts`): 26 uppercase, 26 lowercase, 10 digits and the
8 specials `!@#$%^&*` — 70 characters. -/
def passwordCharset : String :=
  "ABCDEFGHIJKLMNOPQRSTUVWXYZabcdefghijklmnopqrstuvwxyz0123456789!@#$%^&*"

/-- `generateSecurePassword` from `src/lib/password.ts`.  The loop
appends `charset[Math.floor(Math.random() * charset.length)]` `length`
times; since `Math.random()` lies in `[0,1)`, each drawn index lies in
`0..69`, which the embedding models by the oracle `rand : Nat → Fin 70`
giving the index drawn at each iteration. -/
def generateSecurePassword (rand : Nat → Fin 70) (length : Nat) : String :=
  String.mk ((List.range length).map fun i =>
    passwordCharset.data.get (Fin.cast (by decide) (rand i)))

/-- `generateSecurePassword()` with the default parameter
`length = 16`. -/
def generateSecurePasswordDefault (rand : Nat → Fin 70) : String :=
  generateSecurePassword rand 16

/-- Result record of `validatePasswordStrength`
(`{ isValid: boolean, errors: string[] }`). -/
structure PasswordValidation where
  isValid : Bool
  errors : List String
deriving DecidableEq

/-- The regex `/[A-Z]/.test s`. -/
def hasUppercase (s : String) : Bool :=
  s.data.any fun c => 'A' ≤ c && c ≤ 'Z'

/-- The regex `/[a-z]/.test s`. -/
def hasLowercase (s : String) : Bool :=
  s.data.any fun c => 'a' ≤ c && c ≤ 'z'

/-- The regex `/\d/.test s`. -/
def hasDigitChar (s : String) : Bool :=
  s.data.any fun c => '0' ≤ c && c ≤ '9'

/-- The character class of the source's special-character regex
`[!@#$%^&*()_+\-=\[\]{};':"\\|,.<>\/?]`. -/
def specialChars : List Char :=
  ['!', '@', '#', '$', '%', '^', '&', '*', '(', ')', '_', '+', '-', '=',
   '[', ']', Char.ofNat 123, Char.ofNat 125, ';', Char.ofNat 39, ':',
   Char.ofNat 34, '\\', '|', ',', '.', '<', '>', '/', '?']

/-- The special-character regex test. -/
def hasSpecialChar (s : String) : Bool :=
  s.data.any fun c => specialChars.contains c

/-- JavaScript's `String.prototype.toLowerCase()` as `authorize` uses
it on an email address, modelled character by character. -/
def toLowerCaseJS (s : String) : String :=
  String.mk (s.data.map Char.toLower)

/-- `validatePasswordStrength` from `src/lib/password.ts`: six
independent checks, each pushing its own error string; `isValid` is
`errors.length === 0`. -/
def validatePasswordStrength (password : String) : PasswordValidation :=
  let errors : List String :=
    (if password.length < 8 then
      ["Password must be at least 8 characters long"] else []) ++
    (if password.length > 72 then
      ["Password must be 72 characters or less"] else []) ++
    (if !hasUppercase password then
      ["Password must contain at least one uppercase letter"] else []) ++
    (if !hasLowercase password then
      ["Password must contain at least one lowercase letter"] else []) ++
    (if !hasDigitChar password then
      ["Password must contain at least one number"] else []) ++
    (if !hasSpecialChar password then
      ["Password must contain at least one special character"] else [])
  { isValid := errors.isEmpty, errors := errors }

/-- `UserRole` (`src/types/auth.ts`): `'TENANT' | 'LANDLORD' | 'ADMIN'`. -/
inductive UserRole where
  | TENANT
  | LANDLORD
  | ADMIN
deriving DecidableEq

/-- The record selected by the `prisma.user.findUnique` call inside
`authorize` (`src/lib/auth.ts`): the public identity fields plus the
stored password digest (`null` for OAuth-only accounts).
`emailVerified` is a `Date | null`, modelled as an optional epoch
timestamp. -/
structure PrismaUser where
  id : String
  email : String
  name : Option String
  password : Option String
  role : UserRole
  emailVerified : Option Int
  image : Option String
deriving DecidableEq

/-- The object `authorize` returns on success (`src/lib/auth.ts`):
the public identity fields, with no password field at all. -/
structure AuthUser where
  id : String
  email : String
  name : Option String
  role : UserRole
  emailVerified : Option Int
  image : Option String
deriving DecidableEq

/-- The projection `authorize` performs at its `return` statement:
`{ id, email, name, role, emailVerified, image }` of the found user. -/
def PrismaUser.publicFields (u : PrismaUser) : AuthUser :=
  { id := u.id, email := u.email, name := u.name, role := u.role,
    emailVerified := u.emailVerified, image := u.image }

/-- The credentials object NextAuth hands to `authorize`: each form
field is a string that may be absent (`undefined`). -/
structure Credentials where
  email : Option String
  password : Option String

/-- `v` passes the JavaScript truthiness test `!!credentials?.field`:
present and non-empty. -/
def optTruthy : Option String → Bool
  | none => false
  | some s => s ≠ ""

/-- The external collaborators `authorize` calls, as oracles:
`prisma.user.findUnique` (by normalized email), `bcrypt.compare`,
`bcrypt.getRounds`, `bcrypt.hash` and `prisma.user.update`
(persisting a new digest for a user id).  Each may throw. -/
structure AuthEnv where
  findUnique : String → Except String (Option PrismaUser)
  bcryptCompare : String → String → Except String Bool
  getRounds : String → Except String Nat
  bcryptHash : String → Nat → Except String String
  updateUser : String → String → Except String Unit

/-- Outcome of the best-effort rehash block inside `authorize`.  Its
inner `try`/`catch` logs a failure and continues, so the outcome is
recorded here only so theorems can talk about it; `authorize` discards
it. -/
inductive RehashOutcome where
  | notNeeded
  | persisted
  | failed (msg : String)
deriving DecidableEq

/-- The `if (shouldRehashPassword(user.password)) { try ... catch }`
block of `authorize`: when a rehash is advised, hash the plaintext
again via `hashPassword` and persist via `prisma.user.update`; any
error of either step is caught (logged) and swallowed. -/
def rehashStep (env : AuthEnv) (plaintext stored userId : String) :
    RehashOutcome :=
  if shouldRehashPassword env.getRounds stored then
    match hashPassword (JSVal.str plaintext) env.bcryptHash with
    | Except.error e => RehashOutcome.failed e
    | Except.ok newHash =>
      match env.updateUser userId newHash with
      | Except.error e => RehashOutcome.failed e
      | Except.ok _ => RehashOutcome.persisted
  else RehashOutcome.notNeeded

/-- The `try` block of `authorize` (`src/lib/auth.ts`), before the
outer `catch`: validate input, look the user up by the lower-cased
email, require a truthy stored digest, verify the password, run the
best-effort rehash block, and return the public identity.  An
`Except.error` models an exception escaping the `try` block (thrown by
`findUnique` or by `verifyPassword`); the rehash outcome is produced
alongside the result but never influences it. -/
def authorizeTry (env : AuthEnv) (credentials : Option Credentials) :
    Except String (Option AuthUser × RehashOutcome) :=
  match credentials with
  | none => Except.ok (none, RehashOutcome.notNeeded)
  | some c =>
    match c.email, c.password with
    | some email, some password =>
      if email = "" ∨ password = "" then
        Except.ok (none, RehashOutcome.notNeeded)
      else
        match env.findUnique (toLowerCaseJS email) with
        | Except.error e => Except.error e
        | Except.ok none => Except.ok (none, RehashOutcome.notNeeded)
        | Except.ok (some user) =>
          match user.password with
          | none => Except.ok (none, RehashOutcome.notNeeded)
          | some stored =>
            if stored = "" then
              Except.ok (none, RehashOutcome.notNeeded)
            else
              match verifyPassword (JSVal.str password) (JSVal.str stored)
                  env.bcryptCompare with
              | Except.error e => Except.error e
              | Except.ok false => Except.ok (none, RehashOutcome.notNeeded)
              | Except.ok true =>
                Except.ok (some user.publicFields,
                  rehashStep env password stored user.id)
    | _, _ => Except.ok (none, RehashOutcome.notNeeded)

/-- `authorize` from `src/lib/auth.ts`: the `try` block wrapped in the
outer `catch (error) { return null }`.  The function always returns a
value — `null` on every failure path — and never lets an exception
reach its caller, which the embedding reflects by the total
`Option AuthUser` result. -/
def authorize (env : AuthEnv) (credentials : Option Credentials) :
    Option AuthUser :=
  match authorizeTry env credentials with
  | Except.ok (r, _) => r
  | Except.error _ => none

/-- `ExtendedSession` (`src/types/auth.ts`): the `user` field may be
`undefined` at runtime (the case `isAuthenticated` guards against);
`expires` comes from `DefaultSession`. -/
structure Session where
  user : Option AuthUser
  expires : String

/-- `isAuthenticated` from `src/types/auth.ts`:
`session !== null && session !== undefined && session.user !== undefined`.
`none` covers both `null` and `undefined` arguments. -/
def isAuthenticated : Option Session → Bool
  | none => false
  | some s => s.user.isSome

/-! ## Concrete oracles used by witnesses (mirroring the jest mocks of
`src/lib/__tests__/password.test.ts`) -/

/-- The constant digest the repository's jest mock returns for
`bcrypt.hash`. -/
def mockDigest : String :=
  "$2a$12$R9h/cIPz0gi.URNNX3kh2OPST9/PgBkqquzi.Ss7KIUgO2t0jWMUW"

/-- A `bcrypt.hash` oracle that always succeeds with `mockDigest`. -/
def mockBcryptHash : String → Nat → Except String String :=
  fun _ _ => Except.ok mockDigest

/-- A `bcrypt.hash` oracle that always throws. -/
def failingBcryptHash : String → Nat → Except String String :=
  fun _ _ => Except.error "Bcrypt failed"

/-- A `bcrypt.compare` oracle that always resolves `true`. -/
def mockCompareTrue : String → String → Except String Bool :=
  fun _ _ => Except.ok true

/-- A `bcrypt.compare` oracle that always resolves `false`. -/
def mockCompareFalse : String → String → Except String Bool :=
  fun _ _ => Except.ok false

/-- A `bcrypt.getRounds` oracle reporting work factor 10. -/
def mockGetRounds10 : String → Except String Nat :=
  fun _ => Except.ok 10

/-- A `bcrypt.getRounds` oracle reporting work factor 12. -/
def mockGetRounds12 : String → Except String Nat :=
  fun _ => Except.ok 12

/-- A random-index oracle that always draws index 0. -/
def randZero : Nat → Fin 70 :=
  fun _ => ⟨0, by decide⟩

/-- Helper: decidable equality on `Except`, so witnesses can evaluate
embedded functions with `decide`. -/
instance {ε α : Type} [DecidableEq ε] [DecidableEq α] :
    DecidableEq (Except ε α) := fun a b =>
  match a, b with
  | Except.ok x, Except.ok y =>
    if h : x = y then isTrue (by rw [h])
    else isFalse (fun hc => h (by injection hc))
  | Except.error x, Except.error y =>
    if h : x = y then isTrue (by rw [h])
    else isFalse (fun hc => h (by injection hc))
  | Except.ok _, Except.error _ => isFalse nofun
  | Except.error _, Except.ok _ => isFalse nofun

/-! ## Claims about the session type guard and the rehash advisor -/

/-- C9: `isAuthenticated` returns `true` exactly when the session is
present and its `user` field is present; `none` (covering both `null`
and `undefined` arguments) and a session whose `user` is `undefined`
are unauthenticated.  The function is total (never throws). -/
theorem isAuthenticated_iff_present (s : Option Session) :
    isAuthenticated s = true ↔
      ∃ sess, s = some sess ∧ ∃ u, sess.user = some u := by
  cases s with
  | none => simp [isAuthenticated]
  | some sess => simp [isAuthenticated, Option.isSome_iff_exists]

/-- C7: `shouldRehashPassword` is `true` exactly when extracting the
embedded work factor fails or the extracted work factor is below the
configured `SALT_ROUNDS = 12`; being `Bool`-valued and total, it never
throws. -/
theorem shouldRehashPassword_iff (getRounds : String → Except String Nat)
    (digest : String) :
    shouldRehashPassword getRounds digest = true ↔
      (∃ e, getRounds digest = Except.error e) ∨
      (∃ r, getRounds digest = Except.ok r ∧ r < SALT_ROUNDS) := by
  unfold shouldRehashPassword
  cases h : getRounds digest with
  | ok r => simp [h, decide_eq_true_eq]
  | error e => simp [h]

/-- C4: every error `verifyPassword` raises carries the single generic
message `Password verification failed`, regardless of which sub-check
failed; and it raises an error exactly when the plaintext is not a
non-empty string, the digest is not a non-empty string, or the
underlying comparison oracle itself errors. -/
theorem verifyPassword_uniform_error (p h : JSVal)
    (cmp : String → String → Except String Bool) :
    (∀ m, verifyPassword p h cmp = Except.error m →
      m = "Password verification failed") ∧
    ((∃ m, verifyPassword p h cmp = Except.error m) ↔
      p.isNonEmptyStr = false ∨ h.isNonEmptyStr = false ∨
      ∃ ps hs e, p = JSVal.str ps ∧ h = JSVal.str hs ∧
        cmp ps hs = Except.error e) := by
  unfold verifyPassword
  cases p with
  | str ps =>
    cases h with
    | str hs =>
      by_cases hp : ps = ""
      · subst hp; simp [JSVal.isNonEmptyStr]
      · by_cases hh : hs = ""
        · subst hh; simp [JSVal.isNonEmptyStr, hp]
        · simp only [if_neg hp, if_neg hh]
          cases hc : cmp ps hs with
          | ok b => simp [JSVal.isNonEmptyStr, hp, hh, hc]
          | error e => simp [JSVal.isNonEmptyStr, hp, hh, hc]
    | nullv => by_cases hp : ps = "" <;> simp [JSVal.isNonEmptyStr, hp]
    | undef => by_cases hp : ps = "" <;> simp [JSVal.isNonEmptyStr, hp]
    | num n => by_cases hp : ps = "" <;> simp [JSVal.isNonEmptyStr, hp]
  | nullv => simp [JSVal.isNonEmptyStr]
  | undef => simp [JSVal.isNonEmptyStr]
  | num n => simp [JSVal.isNonEmptyStr]

/-- Witness for C4: the empty plaintext, an internal comparison error
and the empty digest all fail with the identical generic message. -/
theorem verifyPassword_uniform_error_witness :
    verifyPassword (JSVal.str "") (JSVal.str mockDigest) mockCompareTrue =
      Except.error "Password verification failed" ∧
    "Password verification failed" = "Password verification failed" :=
  ⟨rfl, (verifyPassword_uniform_error (JSVal.str "") (JSVal.str mockDigest)
    mockCompareTrue).1 "Password verification failed" rfl⟩

/-- Unfolding equation for `hashPassword` on a string argument, with
the `catch`-wrapping of each thrown message applied. -/
theorem hashPassword_str_eq (s : String)
    (hashO : String → Nat → Except String String) :
    hashPassword (JSVal.str s) hashO =
      if s = "" then
        Except.error "Password hashing failed: Password must be a non-empty string"
      else if s.length < 8 then
        Except.error "Password hashing failed: Password must be at least 8 characters long"
      else if s.length > 72 then
        Except.error "Password hashing failed: Password must be 72 characters or less"
      else
        match hashO s SALT_ROUNDS with
        | Except.ok d => Except.ok d
        | Except.error m => Except.error ("Password hashing failed: " ++ m) := by
  unfold hashPassword
  by_cases h0 : s = "" <;> by_cases h8 : s.length < 8 <;>
    by_cases h72 : s.length > 72 <;>
      simp only [h0, h8, h72, if_true, if_false, if_pos, if_neg,
        not_false_eq_true] <;>
    cases hashO s SALT_ROUNDS <;> simp

/-- C5: with an underlying digest oracle that never errors,
`hashPassword` succeeds exactly on string plaintexts of length 8..72,
and every failure carries one of the three validation messages
(missing/non-string/empty, too short, too long). -/
theorem hashPassword_validation
    (hashO : String → Nat → Except String String)
    (htotal : ∀ s r, ∃ d, hashO s r = Except.ok d) (p : JSVal) :
    ((∃ d, hashPassword p hashO = Except.ok d) ↔
      ∃ s, p = JSVal.str s ∧ 8 ≤ s.length ∧ s.length ≤ 72) ∧
    (∀ m, hashPassword p hashO = Except.error m →
      m = "Password hashing failed: Password must be a non-empty string" ∨
      m = "Password hashing failed: Password must be at least 8 characters long" ∨
      m = "Password hashing failed: Password must be 72 characters or less") := by
  cases p with
  | str s =>
    rw [hashPassword_str_eq]
    by_cases h0 : s = ""
    · subst h0
      constructor
      · constructor
        · rintro ⟨d, hd⟩; simp at hd
        · rintro ⟨s', hs', h8, -⟩
          cases hs'
          exact absurd h8 (by decide)
      · intro m hm
        simp at hm
        simp [hm]
    · by_cases h8 : s.length < 8
      · constructor
        · constructor
          · rintro ⟨d, hd⟩; simp [h0, h8] at hd
          · rintro ⟨s', hs', h8', -⟩
            cases hs'
            omega
        · intro m hm
          simp [h0, h8] at hm
          simp [hm]
      · by_cases h72 : s.length > 72
        · constructor
          · constructor
            · rintro ⟨d, hd⟩; simp [h0, h8, h72] at hd
            · rintro ⟨s', hs', -, h72'⟩
              cases hs'
              omega
          · intro m hm
            simp [h0, h8, h72] at hm
            simp [hm]
        · obtain ⟨d, hd⟩ := htotal s SALT_ROUNDS
          constructor
          · constructor
            · intro _
              exact ⟨s, rfl, by omega, by omega⟩
            · intro _
              refine ⟨d, ?_⟩
              simp [h0, h8, h72, hd]
          · intro m hm
            simp [h0, h8, h72, hd] at hm
  | nullv =>
    constructor
    · constructor
      · rintro ⟨d, hd⟩; simp [hashPassword] at hd
      · rintro ⟨s', hs', -, -⟩; cases hs'
    · intro m hm
      simp [hashPassword] at hm
      simp [hm]
  | undef =>
    constructor
    · constructor
      · rintro ⟨d, hd⟩; simp [hashPassword] at hd
      · rintro ⟨s', hs', -, -⟩; cases hs'
    · intro m hm
      simp [hashPassword] at hm
      simp [hm]
  | num n =>
    constructor
    · constructor
      · rintro ⟨d, hd⟩; simp [hashPassword] at hd
      · rintro ⟨s', hs', -, -⟩; cases hs'
    · intro m hm
      simp [hashPassword] at hm
      simp [hm]

/-- A 72-character plaintext, the boundary case of the length rule. -/
def aaa72 : String := String.mk (List.replicate 72 'A')

/-- Witness for C5: with the always-succeeding mock oracle, hashing the
72-character plaintext succeeds. -/
theorem hashPassword_validation_witness :
    (∀ s r, ∃ d, mockBcryptHash s r = Except.ok d) ∧
    (∃ d, hashPassword (JSVal.str aaa72) mockBcryptHash = Except.ok d) :=
  ⟨fun _ _ => ⟨mockDigest, rfl⟩,
    ((hashPassword_validation mockBcryptHash (fun _ _ => ⟨mockDigest, rfl⟩)
      (JSVal.str aaa72)).1).mpr ⟨aaa72, rfl, by decide, by decide⟩⟩

/-- C6: the strength validator checks its six rules independently —
each rule's error string appears in the output exactly when that rule
is violated, with no short-circuiting — `isValid` holds exactly when
the error list is empty, and `validateStrength("weak")` yields exactly
the four errors for length, uppercase, number and special character. -/
theorem validatePasswordStrength_spec (p : String) :
    ((validatePasswordStrength p).isValid = true ↔
      (validatePasswordStrength p).errors = []) ∧
    ("Password must be at least 8 characters long" ∈
      (validatePasswordStrength p).errors ↔ p.length < 8) ∧
    ("Password must be 72 characters or less" ∈
      (validatePasswordStrength p).errors ↔ 72 < p.length) ∧
    ("Password must contain at least one uppercase letter" ∈
      (validatePasswordStrength p).errors ↔ hasUppercase p = false) ∧
    ("Password must contain at least one lowercase letter" ∈
      (validatePasswordStrength p).errors ↔ hasLowercase p = false) ∧
    ("Password must contain at least one number" ∈
      (validatePasswordStrength p).errors ↔ hasDigitChar p = false) ∧
    ("Password must contain at least one special character" ∈
      (validatePasswordStrength p).errors ↔ hasSpecialChar p = false) ∧
    (validatePasswordStrength "weak").errors =
      ["Password must be at least 8 characters long",
       "Password must contain at least one uppercase letter",
       "Password must contain at least one number",
       "Password must contain at least one special character"] ∧
    (validatePasswordStrength "weak").isValid = false := by
  refine ⟨?_, ?_, ?_, ?_, ?_, ?_, ?_, by decide, by decide⟩ <;>
    unfold validatePasswordStrength <;>
    by_cases h1 : p.length < 8 <;> by_cases h2 : p.length > 72 <;>
    by_cases h3 : hasUppercase p <;> by_cases h4 : hasLowercase p <;>
    by_cases h5 : hasDigitChar p <;> by_cases h6 : hasSpecialChar p <;>
    simp_all

/-- C10: `generateSecurePassword(n)` returns a string of exactly `n`
characters, each drawn from the fixed 70-character set; with no
argument the default length is 16, and length 0 gives the empty
string. -/
theorem generateSecurePassword_spec (rand : Nat → Fin 70) (n : Nat) :
    (generateSecurePassword rand n).length = n ∧
    (∀ c, c ∈ (generateSecurePassword rand n).data →
      c ∈ passwordCharset.data) ∧
    passwordCharset.length = 70 ∧
    (generateSecurePasswordDefault rand).length = 16 ∧
    generateSecurePassword rand 0 = "" := by
  have hlen : ∀ m, (generateSecurePassword rand m).length = m := by
    intro m
    have h : (generateSecurePassword rand m).length =
        ((List.range m).map fun i =>
          passwordCharset.data.get (Fin.cast (by decide) (rand i))).length := rfl
    rw [h, List.length_map, List.length_range]
  refine ⟨hlen n, ?_, by decide, hlen 16, rfl⟩
  intro c hc
  simp only [generateSecurePassword, List.mem_map, List.mem_range] at hc
  obtain ⟨i, -, rfl⟩ := hc
  exact List.get_mem _ _ _

/-- Witness for C10: with the always-zero index oracle the generated
3-character password consists of charset characters, the default call
yields 16 characters and the zero-length call yields the empty
string. -/
theorem generateSecurePassword_spec_witness :
    ('A' ∈ (generateSecurePassword randZero 3).data) ∧
    ('A' ∈ passwordCharset.data) ∧
    (generateSecurePasswordDefault randZero).length = 16 ∧
    generateSecurePassword randZero 0 = "" :=
  ⟨by decide,
    (generateSecurePassword_spec randZero 3).2.1 'A' (by decide),
    (generateSecurePassword_spec randZero 16).2.2.2.1,
    (generateSecurePassword_spec randZero 0).2.2.2.2⟩

/-- C8: the hash/verify round trip.  For any plaintext of valid length
8..72, if the underlying `bcrypt.hash` oracle produces a (non-empty)
digest `d` and `bcrypt.compare` recognises `p` against `d` — the
contract of bcrypt — then `hashPassword` returns exactly `d` and
`verifyPassword p d` returns `true`: the wrappers neither block nor
distort the round trip. -/
theorem hash_verify_roundtrip
    (hashO : String → Nat → Except String String)
    (cmpO : String → String → Except String Bool)
    (p d : String)
    (h8 : 8 ≤ p.length) (h72 : p.length ≤ 72)
    (hhash : hashO p SALT_ROUNDS = Except.ok d) (hd : d ≠ "")
    (hcmp : cmpO p d = Except.ok true) :
    hashPassword (JSVal.str p) hashO = Except.ok d ∧
    verifyPassword (JSVal.str p) (JSVal.str d) cmpO = Except.ok true := by
  have hp : p ≠ "" := by
    rintro rfl
    exact absurd h8 (by decide)
  constructor
  · rw [hashPassword_str_eq]
    simp [hp, hhash, Nat.not_lt.mpr h8, Nat.not_lt.mpr h72]
  · unfold verifyPassword
    simp [hp, hd, hcmp]

/-- Witness for C8: the test suite's own workflow — the 16-character
plaintext `TestPassword123!`, the mock digest and the mock compare
oracle — hashes and verifies. -/
theorem hash_verify_roundtrip_witness :
    hashPassword (JSVal.str "TestPassword123!") mockBcryptHash =
      Except.ok mockDigest ∧
    verifyPassword (JSVal.str "TestPassword123!") (JSVal.str mockDigest)
      mockCompareTrue = Except.ok true :=
  hash_verify_roundtrip mockBcryptHash mockCompareTrue "TestPassword123!"
    mockDigest (by decide) (by decide) rfl (by decide) rfl

/-! ## Characterisation of `authorize` -/

/-- Unfolding equation for `verifyPassword` on non-empty string
arguments: it reduces to the comparison oracle, with any oracle error
collapsed to the generic message. -/
theorem verifyPassword_str_eq (p h : String) (hp : p ≠ "") (hh : h ≠ "")
    (cmp : String → String → Except String Bool) :
    verifyPassword (JSVal.str p) (JSVal.str h) cmp =
      match cmp p h with
      | Except.ok b => Except.ok b
      | Except.error _ => Except.error "Password verification failed" := by
  unfold verifyPassword
  simp [hp, hh]

/-- The `try` block of `authorize` produces a non-null user exactly
when every step of the pipeline succeeds: credentials present and
truthy, lookup of the lower-cased email finds a user, that user has a
truthy stored digest, and the comparison oracle accepts the plaintext;
the produced user is the public projection and the rehash outcome is
that of the best-effort rehash block. -/
theorem authorizeTry_ok_some_iff (env : AuthEnv) (creds : Option Credentials)
    (u : AuthUser) (ro : RehashOutcome) :
    authorizeTry env creds = Except.ok (some u, ro) ↔
      ∃ c e pw user stored, creds = some c ∧ c.email = some e ∧
        c.password = some pw ∧ e ≠ "" ∧ pw ≠ "" ∧
        env.findUnique (toLowerCaseJS e) = Except.ok (some user) ∧
        user.password = some stored ∧ stored ≠ "" ∧
        env.bcryptCompare pw stored = Except.ok true ∧
        u = user.publicFields ∧ ro = rehashStep env pw stored user.id := by
  constructor
  · intro h
    cases creds with
    | none => simp [authorizeTry] at h
    | some c =>
      cases hce : c.email with
      | none => simp [authorizeTry, hce] at h
      | some e =>
        cases hcp : c.password with
        | none => simp [authorizeTry, hce, hcp] at h
        | some pw =>
          by_cases hepw : e = "" ∨ pw = ""
          · simp [authorizeTry, hce, hcp, hepw] at h
          · cases hfind : env.findUnique (toLowerCaseJS e) with
            | error er => simp [authorizeTry, hce, hcp, hepw, hfind] at h
            | ok ou =>
              cases ou with
              | none => simp [authorizeTry, hce, hcp, hepw, hfind] at h
              | some user =>
                cases hupw : user.password with
                | none =>
                  simp [authorizeTry, hce, hcp, hepw, hfind, hupw] at h
                | some stored =>
                  by_cases hs : stored = ""
                  · simp [authorizeTry, hce, hcp, hepw, hfind, hupw, hs] at h
                  · have hepw2 := hepw
                    push_neg at hepw2
                    obtain ⟨he, hpw⟩ := hepw2
                    have hveq := verifyPassword_str_eq pw stored hpw hs
                      env.bcryptCompare
                    cases hcmp : env.bcryptCompare pw stored with
                    | error er =>
                      rw [hcmp] at hveq
                      simp [authorizeTry, hce, hcp, hepw, hfind, hupw, hs,
                        hveq] at h
                    | ok b =>
                      rw [hcmp] at hveq
                      cases b with
                      | false =>
                        simp [authorizeTry, hce, hcp, hepw, hfind, hupw, hs,
                          hveq] at h
                      | true =>
                        simp [authorizeTry, hce, hcp, hepw, hfind, hupw, hs,
                          hveq] at h
                        obtain ⟨hu, hro⟩ := h
                        exact ⟨c, e, pw, user, stored, rfl, hce, hcp, he,
                          hpw, hfind, hupw, hs, hcmp, hu.symm, hro.symm⟩
  · rintro ⟨c, e, pw, user, stored, rfl, hce, hcp, he, hpw, hfind, hupw,
      hs, hcmp, rfl, rfl⟩
    have hepw : ¬(e = "" ∨ pw = "") := by simp [he, hpw]
    have hv : verifyPassword (JSVal.str pw) (JSVal.str stored)
        env.bcryptCompare = Except.ok true := by
      rw [verifyPassword_str_eq pw stored hpw hs, hcmp]
    simp [authorizeTry, hce, hcp, hepw, hfind, hupw, hs, hv]

/-- `authorize` returns a user exactly when its `try` block does; the
rehash outcome is discarded. -/
theorem authorize_eq_some (env : AuthEnv) (creds : Option Credentials)
    (u : AuthUser) :
    authorize env creds = some u ↔
      ∃ ro, authorizeTry env creds = Except.ok (some u, ro) := by
  unfold authorize
  cases ht : authorizeTry env creds with
  | error e => simp
  | ok pr =>
    obtain ⟨r, ro⟩ := pr
    constructor
    · intro hru
      exact ⟨ro, by rw [show r = some u from hru]⟩
    · rintro ⟨ro2, hr⟩
      exact congrArg Prod.fst (Except.ok.inj hr)

/-- Full success characterisation of `authorize`: it returns a user
exactly when credentials are present and truthy, the lower-cased email
resolves to a stored user, that user has a truthy digest, the
comparison oracle accepts the plaintext — and then the returned value
is exactly the public projection of the found user. -/
theorem authorize_some_iff (env : AuthEnv) (creds : Option Credentials)
    (u : AuthUser) :
    authorize env creds = some u ↔
      ∃ c e pw user stored, creds = some c ∧ c.email = some e ∧
        c.password = some pw ∧ e ≠ "" ∧ pw ≠ "" ∧
        env.findUnique (toLowerCaseJS e) = Except.ok (some user) ∧
        user.password = some stored ∧ stored ≠ "" ∧
        env.bcryptCompare pw stored = Except.ok true ∧
        u = user.publicFields := by
  rw [authorize_eq_some]
  constructor
  · rintro ⟨ro, h⟩
    obtain ⟨c, e, pw, user, stored, h1, h2, h3, h4, h5, h6, h7, h8, h9,
      h10, -⟩ := (authorizeTry_ok_some_iff env creds u ro).mp h
    exact ⟨c, e, pw, user, stored, h1, h2, h3, h4, h5, h6, h7, h8, h9, h10⟩
  · rintro ⟨c, e, pw, user, stored, h1, h2, h3, h4, h5, h6, h7, h8, h9, h10⟩
    exact ⟨rehashStep env pw stored user.id,
      (authorizeTry_ok_some_iff env creds u _).mpr
        ⟨c, e, pw, user, stored, h1, h2, h3, h4, h5, h6, h7, h8, h9, h10,
          rfl⟩⟩

/-- Whenever the `try` block completes, a null user can only come with
an untouched (not-needed) rehash outcome: the rehash block runs only
after a successful verification. -/
theorem authorizeTry_shape (env : AuthEnv) (creds : Option Credentials)
    (r : Option AuthUser) (ro : RehashOutcome)
    (h : authorizeTry env creds = Except.ok (r, ro)) :
    (r = none ∧ ro = RehashOutcome.notNeeded) ∨ ∃ u, r = some u := by
  cases r with
  | some u => exact Or.inr ⟨u, rfl⟩
  | none =>
    refine Or.inl ⟨rfl, ?_⟩
    unfold authorizeTry at h
    repeat' split at h
    all_goals simp_all

/-! ## Claims about the credential authenticator -/

/-- C1: whenever any step of the login pipeline fails — missing email
or password, a lookup error, an unknown user, a user without a stored
password, a wrong password, or an internal error of the comparison —
`authorize` returns the single uniform outcome `null`.  The embedding
is a total function into `Option AuthUser` because the source wraps the
whole body in `try { ... } catch { return null }`, so no exception ever
reaches the caller. -/
theorem authorize_uniform_failure (env : AuthEnv) (creds : Option Credentials)
    (hfail : ¬ ∃ c e pw user stored, creds = some c ∧ c.email = some e ∧
      c.password = some pw ∧ e ≠ "" ∧ pw ≠ "" ∧
      env.findUnique (toLowerCaseJS e) = Except.ok (some user) ∧
      user.password = some stored ∧ stored ≠ "" ∧
      env.bcryptCompare pw stored = Except.ok true) :
    authorize env creds = none := by
  cases hr : authorize env creds with
  | none => rfl
  | some u =>
    exfalso
    obtain ⟨c, e, pw, user, stored, h1, h2, h3, h4, h5, h6, h7, h8, h9, -⟩ :=
      (authorize_some_iff env creds u).mp hr
    exact hfail ⟨c, e, pw, user, stored, h1, h2, h3, h4, h5, h6, h7, h8, h9⟩

/-- C2: whenever `authorize` succeeds, the returned object is exactly
the public identity projection (id, email, name, role, emailVerified,
image) of the user record the lookup produced; the `AuthUser` type has
no password field, so the stored digest cannot appear in the result. -/
theorem authorize_returns_public_identity (env : AuthEnv)
    (creds : Option Credentials) (u : AuthUser)
    (h : authorize env creds = some u) :
    ∃ c e pw user stored, creds = some c ∧ c.email = some e ∧
      c.password = some pw ∧
      env.findUnique (toLowerCaseJS e) = Except.ok (some user) ∧
      user.password = some stored ∧
      u = { id := user.id, email := user.email, name := user.name,
            role := user.role, emailVerified := user.emailVerified,
            image := user.image } := by
  obtain ⟨c, e, pw, user, stored, h1, h2, h3, -, -, h6, h7, -, -, h10⟩ :=
    (authorize_some_iff env creds u).mp h
  exact ⟨c, e, pw, user, stored, h1, h2, h3, h6, h7, h10⟩

/-- C3: when the login pipeline reaches the best-effort rehash block
and that block fails (hashing again or persisting throws), the attempt
still completes with the authenticated user: the `try` outcome is a
non-null user and `authorize` returns exactly it, so the rehash error
is never propagated. -/
theorem authorize_rehash_failure_no_downgrade (env : AuthEnv)
    (creds : Option Credentials) (r : Option AuthUser) (msg : String)
    (h : authorizeTry env creds = Except.ok (r, RehashOutcome.failed msg)) :
    (∃ u, r = some u) ∧ authorize env creds = r := by
  constructor
  · rcases authorizeTry_shape env creds r _ h with ⟨-, hro⟩ | hu
    · simp at hro
    · exact hu
  · unfold authorize
    rw [h]

/-! ## Concrete login scenario used by the witnesses -/

/-- A stored user record: the test-suite user with the mock digest as
stored password. -/
def demoUser : PrismaUser :=
  { id := "user-1", email := "test@example.com", name := some "Test User",
    password := some mockDigest, role := UserRole.TENANT,
    emailVerified := none, image := none }

/-- Login-form credentials whose email needs case normalization. -/
def demoCreds : Credentials :=
  { email := some "Test@Example.com", password := some "TestPassword123!" }

/-- A healthy environment: the lookup knows `demoUser` under the
normalized email, comparison accepts, the digest is already at work
factor 12. -/
def demoEnv : AuthEnv :=
  { findUnique := fun e =>
      if e = "test@example.com" then Except.ok (some demoUser)
      else Except.ok none,
    bcryptCompare := mockCompareTrue,
    getRounds := mockGetRounds12,
    bcryptHash := mockBcryptHash,
    updateUser := fun _ _ => Except.ok () }

/-- An environment whose stored digest reports work factor 10 (so a
rehash is advised) and whose `bcrypt.hash` throws during the rehash. -/
def demoRehashFailEnv : AuthEnv :=
  { findUnique := fun e =>
      if e = "test@example.com" then Except.ok (some demoUser)
      else Except.ok none,
    bcryptCompare := mockCompareTrue,
    getRounds := mockGetRounds10,
    bcryptHash := failingBcryptHash,
    updateUser := fun _ _ => Except.ok () }

/-- Witness for C1: absent credentials are one of the failure modes,
and `authorize` returns `null` there. -/
theorem authorize_uniform_failure_witness :
    (¬ ∃ c e pw user stored, (none : Option Credentials) = some c ∧
      c.email = some e ∧ c.password = some pw ∧ e ≠ "" ∧ pw ≠ "" ∧
      demoEnv.findUnique (toLowerCaseJS e) = Except.ok (some user) ∧
      user.password = some stored ∧ stored ≠ "" ∧
      demoEnv.bcryptCompare pw stored = Except.ok true) ∧
    authorize demoEnv none = none :=
  ⟨by simp, authorize_uniform_failure demoEnv none (by simp)⟩

/-- Witness for C2: the demo login succeeds and returns exactly the
public projection of `demoUser`. -/
theorem authorize_returns_public_identity_witness :
    authorize demoEnv (some demoCreds) = some demoUser.publicFields ∧
    (∃ c e pw user stored, (some demoCreds : Option Credentials) = some c ∧
      c.email = some e ∧ c.password = some pw ∧
      demoEnv.findUnique (toLowerCaseJS e) = Except.ok (some user) ∧
      user.password = some stored ∧
      demoUser.publicFields =
        { id := user.id, email := user.email, name := user.name,
          role := user.role, emailVerified := user.emailVerified,
          image := user.image }) :=
  ⟨by decide, authorize_returns_public_identity demoEnv (some demoCreds)
    demoUser.publicFields (by decide)⟩

/-- Witness for C3: with a work-factor-10 digest and a throwing
`bcrypt.hash`, the rehash step fails but the login still returns the
authenticated user. -/
theorem authorize_rehash_failure_no_downgrade_witness :
    authorizeTry demoRehashFailEnv (some demoCreds) =
      Except.ok (some demoUser.publicFields,
        RehashOutcome.failed "Password hashing failed: Bcrypt failed") ∧
    (∃ u, (some demoUser.publicFields : Option AuthUser) = some u) ∧
    authorize demoRehashFailEnv (some demoCreds) =
      some demoUser.publicFields :=
  ⟨by decide,
    (authorize_rehash_failure_no_downgrade demoRehashFailEnv
      (some demoCreds) (some demoUser.publicFields)
      "Password hashing failed: Bcrypt failed" (by decide)).1,
    (authorize_rehash_failure_no_downgrade demoRehashFailEnv
      (some demoCreds) (some demoUser.publicFields)
      "Password hashing failed: Bcrypt failed" (by decide)).2⟩

/-- A valid session wrapping the demo user's public identity. -/
def demoSession : Session :=
  { user := some demoUser.publicFields, expires := "2026-11-10T00:00:00Z" }

/-- Witness for C9: a session carrying an identity is authenticated;
`none` and a session with an absent identity are not. -/
theorem isAuthenticated_iff_present_witness :
    isAuthenticated (some demoSession) = true ∧
    isAuthenticated none = false ∧
    isAuthenticated (some { user := none, expires := "" }) = false :=
  ⟨(isAuthenticated_iff_present (some demoSession)).mpr
    ⟨demoSession, rfl, demoUser.publicFields, rfl⟩, rfl, rfl⟩

/-- Witness for C7: a work-factor-10 digest triggers a rehash under
the configured factor 12; a factor-12 digest does not; a digest whose
round extraction fails does. -/
theorem shouldRehashPassword_iff_witness :
    shouldRehashPassword mockGetRounds10 mockDigest = true ∧
    shouldRehashPassword mockGetRounds12 mockDigest = false ∧
    shouldRehashPassword (fun _ => Except.error "Invalid hash format")
      "not-a-real-digest" = true :=
  ⟨(shouldRehashPassword_iff mockGetRounds10 mockDigest).mpr
    (Or.inr ⟨10, rfl, by decide⟩), by decide, rfl⟩

/-- Witness for C6: the canonical weak password is reported with its
four rule violations and nothing else. -/
theorem validatePasswordStrength_spec_witness :
    (validatePasswordStrength "weak").isValid = false ∧
    (validatePasswordStrength "weak").errors =
      ["Password must be at least 8 characters long",
       "Password must contain at least one uppercase letter",
       "Password must contain at least one number",
       "Password must contain at least one special character"] :=
  ⟨(validatePasswordStrength_spec "weak").2.2.2.2.2.2.2.2,
    (validatePasswordStrength_spec "weak").2.2.2.2.2.2.2.1⟩

end RentalAuth
